import Mathlib

/-!
Verification of the signal/exit decision engine of a Polymarket 15-minute
Up/Down scalping bot.  The definitions below are shallow embeddings of the
Python sources:

  * `scripts/backtest_scalp.py` — `simulate_exit`, `get_prices_in_window`,
    `strat_range_trader`, `compute_stats` and the split-half stability check;
  * `src/strategy.py` — `StrategyState`, `evaluate`, `check_exit`;
  * `src/execution.py` — `BotState` and its bookkeeping operations.

Python floats are modelled by exact rationals (`ℚ`); epoch timestamps by `ℤ`.
Implicit wall-clock reads (`time.time()`) become explicit arguments.
-/

/-- A point of a CLOB price history: `{"t": epoch seconds, "p": price}`. -/
structure PricePoint where
  t : Int
  p : ℚ
deriving DecidableEq, Repr

/-- The dict returned by `simulate_exit`:
`{exit_type, exit_price, exit_minute, pnl}`. -/
structure ExitOutcome where
  exit_type : String
  exit_price : ℚ
  exit_minute : ℚ
  pnl : ℚ
deriving DecidableEq, Repr

/-- Position price of a side, from `simulate_exit`:
`pos_price = p if side == "Up" else 1.0 - p`. -/
def posPrice (side : String) (price_up : ℚ) : ℚ :=
  if side = "Up" then price_up else 1 - price_up

/-- Minute of a price point within the period:
`minute = (p["t"] - period_start) / 60.0`. -/
def sampleMinute (period_start : Int) (pp : PricePoint) : ℚ :=
  ((pp.t : ℚ) - (period_start : ℚ)) / 60

/-- Body of the walk loop of `simulate_exit`: the three exit checks applied
to one sample, in source order — take-profit, then stop-loss, then
deadline; `none` when no exit condition fires at this sample. -/
def stepExit (entry_price tp_delta sl_delta exit_deadline minute pos_price : ℚ) :
    Option ExitOutcome :=
  if entry_price + tp_delta ≤ pos_price then
    some { exit_type := "tp", exit_price := entry_price + tp_delta,
           exit_minute := minute, pnl := tp_delta }
  else if pos_price ≤ entry_price - sl_delta then
    some { exit_type := "sl", exit_price := entry_price - sl_delta,
           exit_minute := minute, pnl := -sl_delta }
  else if exit_deadline ≤ minute then
    some { exit_type := "deadline", exit_price := pos_price,
           exit_minute := minute, pnl := pos_price - entry_price }
  else none

/-- The `for p in prices_up` loop of `simulate_exit`: samples at or before
`entry_minute + 0.3` are skipped (`continue`), a sample past minute 15
stops the walk (`break`), and otherwise the three prioritized exit checks
run on the sample. -/
def walkExit (period_start : Int) (side : String)
    (entry_price entry_minute tp_delta sl_delta exit_deadline : ℚ) :
    List PricePoint → Option ExitOutcome
  | [] => none
  | pp :: rest =>
    let minute := sampleMinute period_start pp
    if minute ≤ entry_minute + 3/10 then
      walkExit period_start side entry_price entry_minute tp_delta sl_delta exit_deadline rest
    else if 15 < minute then none
    else
      match stepExit entry_price tp_delta sl_delta exit_deadline minute
          (posPrice side pp.p) with
      | some o => some o
      | none =>
        walkExit period_start side entry_price entry_minute tp_delta sl_delta exit_deadline rest

/-- Embedding of `simulate_exit` from `scripts/backtest_scalp.py`: walk the
series after entry; if no exit fires, fall back to settlement (when
`hold_to_settlement` and the outcome string is non-empty), else to the last
observed price (`"eod"`), else to a zero-P&L `"no_data"` outcome. -/
def simulate_exit (prices_up : List PricePoint) (period_start : Int) (side : String)
    (entry_price entry_minute tp_delta sl_delta exit_deadline : ℚ)
    (hold_to_settlement : Bool) (outcome : String) : ExitOutcome :=
  match walkExit period_start side entry_price entry_minute tp_delta sl_delta exit_deadline
      prices_up with
  | some o => o
  | none =>
    if hold_to_settlement = true ∧ outcome ≠ "" then
      let won : Bool := (side == "Up" && outcome == "up") || (side == "Down" && outcome == "down")
      let settlement : ℚ := if won then 1 else 0
      { exit_type := "settlement", exit_price := settlement, exit_minute := 15,
        pnl := settlement - entry_price }
    else
      match prices_up.getLast? with
      | some last =>
        let pos_price := posPrice side last.p
        { exit_type := "eod", exit_price := pos_price, exit_minute := 29/2,
          pnl := pos_price - entry_price }
      | none =>
        { exit_type := "no_data", exit_price := entry_price, exit_minute := entry_minute,
          pnl := 0 }

/-- A sample that the walk of `simulate_exit` passes over without exiting:
either it is skipped (at or before the entry dead-zone), or it is checked
(within minute 15) and none of the three exit conditions fires. -/
def passesSample (period_start : Int) (side : String)
    (entry_price entry_minute tp_delta sl_delta exit_deadline : ℚ) (pp : PricePoint) : Prop :=
  sampleMinute period_start pp ≤ entry_minute + 3/10 ∨
    (sampleMinute period_start pp ≤ 15 ∧
      stepExit entry_price tp_delta sl_delta exit_deadline (sampleMinute period_start pp)
        (posPrice side pp.p) = none)

instance (period_start : Int) (side : String)
    (entry_price entry_minute tp_delta sl_delta exit_deadline : ℚ) (pp : PricePoint) :
    Decidable (passesSample period_start side entry_price entry_minute tp_delta sl_delta
      exit_deadline pp) := by
  unfold passesSample
  infer_instance

/-- A price snapshot of the live strategy (`src/strategy.py`):
PM Up price at a minute within the period. -/
structure PriceSnapshot where
  minute : ℚ
  price_up : ℚ
  timestamp : ℚ
deriving DecidableEq, Repr

/-- A live trade signal (`src/strategy.py`).  The `signal` enum value is kept
as its string value; the free-text `confidence` description is omitted. -/
structure TradeSignal where
  signal : String
  side : String
  entry_price : ℚ
  entry_minute : ℚ
  period_ts : Int
deriving DecidableEq, Repr

/-- Live exit decision (`src/strategy.py`, `class ExitType`). -/
inductive ExitType where
  | NONE
  | TAKE_PROFIT
  | STOP_LOSS
  | DEADLINE
deriving DecidableEq, Repr

/-- Per-period state for live strategy evaluation (`src/strategy.py`). -/
structure StrategyState where
  period_ts : Int
  snapshots : List PriceSnapshot
  signal_fired : Bool
  last_signal : Option TradeSignal
deriving DecidableEq, Repr

/-- Method `StrategyState.reset`: start a fresh period. -/
def StrategyState.reset (_state : StrategyState) (period_ts : Int) : StrategyState :=
  { period_ts := period_ts, snapshots := [], signal_fired := false, last_signal := none }

/-- Method `StrategyState.add_snapshot`; the `time.time()` wall-clock read
becomes the explicit `timestamp` argument. -/
def StrategyState.add_snapshot (state : StrategyState) (minute price_up timestamp : ℚ) :
    StrategyState :=
  { state with snapshots := state.snapshots ++
      [{ minute := minute, price_up := price_up, timestamp := timestamp }] }

/-- Method `StrategyState.get_price_at`: price of the snapshot closest to
`target_minute`, scanning in insertion order, accepted only within
`tolerance`; `none` when no snapshot qualifies.  The accumulator carries
the best `(price, distance)` seen so far (`best_dist` starts at infinity,
modelled by the empty accumulator). -/
def StrategyState.get_price_at (state : StrategyState) (target_minute tolerance : ℚ) :
    Option ℚ :=
  (state.snapshots.foldl
    (fun best s =>
      let dist := |s.minute - target_minute|
      match best with
      | none => if dist ≤ tolerance then some (s.price_up, dist) else none
      | some (b, best_dist) =>
        if dist < best_dist ∧ dist ≤ tolerance then some (s.price_up, dist)
        else some (b, best_dist))
    none).map Prod.fst

/-- Strategy parameters of `src/strategy.py`
(`mom_m5_lb2_60%_tp0.15_sl0.05`). -/
def ENTRY_MINUTE : ℚ := 5

/-- Trend-confirmation lookback minute. -/
def LOOKBACK_MINUTE : ℚ := 3

/-- Minimum leading-side price to enter. -/
def THRESHOLD : ℚ := 3/5

/-- Latest minute at which a signal may fire. -/
def MAX_SIGNAL_MINUTE : ℚ := 6

/-- Live take-profit delta (+15 cents from entry). -/
def TAKE_PROFIT : ℚ := 3/20

/-- Live stop-loss delta (−5 cents from entry). -/
def STOP_LOSS : ℚ := 1/20

/-- Live deadline minute (exit at market at minute 14). -/
def DEADLINE_MINUTE : ℚ := 14

/-- Embedding of `evaluate` from `src/strategy.py`, which mutates `state`:
the result pairs the optional signal with the updated state.  The hidden
`time.time()` read becomes the explicit `now` argument (epoch seconds). -/
def evaluate (state : StrategyState) (now : ℚ) : Option TradeSignal × StrategyState :=
  if state.signal_fired then (none, state)
  else
    let p3 := state.get_price_at LOOKBACK_MINUTE 1
    let p5 := state.get_price_at ENTRY_MINUTE 1
    match p5 with
    | none => (none, state)
    | some pv5 =>
      let current_minute := (now - (state.period_ts : ℚ)) / 60
      if current_minute < ENTRY_MINUTE - 1/2 ∨ MAX_SIGNAL_MINUTE < current_minute then
        (none, state)
      else
        match p3 with
        | none => (none, state)
        | some pv3 =>
          if THRESHOLD ≤ pv5 ∧ pv3 < pv5 then
            let sig : TradeSignal :=
              { signal := "momentum_scalp", side := "Up", entry_price := pv5,
                entry_minute := current_minute, period_ts := state.period_ts }
            (some sig, { state with signal_fired := true, last_signal := some sig })
          else if THRESHOLD ≤ 1 - pv5 ∧ pv5 < pv3 then
            let sig : TradeSignal :=
              { signal := "momentum_scalp", side := "Down", entry_price := 1 - pv5,
                entry_minute := current_minute, period_ts := state.period_ts }
            (some sig, { state with signal_fired := true, last_signal := some sig })
          else (none, state)

/-- Embedding of `check_exit` from `src/strategy.py`; the hidden
`time.time()` read becomes the explicit `now` argument. -/
def check_exit (state : StrategyState) (current_price_up now : ℚ) : ExitType :=
  match state.last_signal with
  | none => ExitType.NONE
  | some sig =>
    let current_minute := (now - (state.period_ts : ℚ)) / 60
    let current_side_price :=
      if sig.side = "Up" then current_price_up else 1 - current_price_up
    if sig.entry_price + TAKE_PROFIT ≤ current_side_price then ExitType.TAKE_PROFIT
    else if current_side_price ≤ sig.entry_price - STOP_LOSS then ExitType.STOP_LOSS
    else if DEADLINE_MINUTE ≤ current_minute then ExitType.DEADLINE
    else ExitType.NONE

/-- View of the simulator's per-sample verdict as a live `ExitType`, keyed by
the `exit_type` strings `simulate_exit` produces. -/
def exitTypeOfSim : Option ExitOutcome → ExitType
  | none => ExitType.NONE
  | some o =>
    if o.exit_type = "tp" then ExitType.TAKE_PROFIT
    else if o.exit_type = "sl" then ExitType.STOP_LOSS
    else if o.exit_type = "deadline" then ExitType.DEADLINE
    else ExitType.NONE

/-- An interaction with the per-period live state between two resets:
either a snapshot is ingested or `evaluate` is called at some wall-clock
instant. -/
inductive StratOp where
  | snap (minute price_up timestamp : ℚ)
  | tick (now : ℚ)

/-- Run a sequence of interactions against the per-period state, counting
how many `evaluate` calls returned a `TradeSignal`. -/
def runStrategy (state : StrategyState) : List StratOp → Nat × StrategyState
  | [] => (0, state)
  | StratOp.snap m pu ts :: rest => runStrategy (state.add_snapshot m pu ts) rest
  | StratOp.tick now :: rest =>
    match evaluate state now with
    | (some _, state') =>
      let r := runStrategy state' rest
      (r.1 + 1, r.2)
    | (none, state') => runStrategy state' rest

/-- A trade record (`src/execution.py`, `class TradeRecord`). -/
structure TradeRecord where
  timestamp : String
  period_ts : Int
  signal_type : String
  side : String
  entry_price : ℚ
  entry_minute : ℚ
  size_usd : ℚ
  order_id : Option String
  status : String
  confidence : String
  outcome : Option String
  exit_type : Option String
  exit_price : Option ℚ
  pnl : Option ℚ
deriving DecidableEq, Repr

/-- Live bot bookkeeping (`src/execution.py`, `class BotState`). -/
structure BotState where
  trades : List TradeRecord
  total_pnl : ℚ
  wins : Nat
  losses : Nat
  current_order_id : Option String
  current_side : Option String
  current_token_id : Option String
deriving DecidableEq, Repr

/-- Field defaults of `BotState`. -/
def initBotState : BotState :=
  { trades := [], total_pnl := 0, wins := 0, losses := 0,
    current_order_id := none, current_side := none, current_token_id := none }

/-- Property `BotState.total_trades`. -/
def BotState.total_trades (b : BotState) : Nat := b.wins + b.losses

/-- Property `BotState.win_rate`. -/
def BotState.win_rate (b : BotState) : ℚ :=
  if 0 < b.total_trades then (b.wins : ℚ) / (b.total_trades : ℚ) else 0

/-- Method `BotState.record_trade` (the side effect of appending to the
on-disk trade log is external and omitted). -/
def BotState.record_trade (b : BotState) (rec : TradeRecord) : BotState :=
  { b with trades := b.trades ++ [rec] }

/-- Method `BotState.record_outcome`: mutate the last trade record when one
exists, then update the running totals. -/
def BotState.record_outcome (b : BotState) (won : Bool) (pnl : ℚ)
    (exit_ty : String) (exit_price : Option ℚ) : BotState :=
  let trades' :=
    match b.trades.getLast? with
    | some last =>
      b.trades.dropLast ++
        [{ last with outcome := some (if won then "won" else "lost"),
                     pnl := some pnl, exit_type := some exit_ty, exit_price := exit_price }]
    | none => b.trades
  { b with trades := trades',
           total_pnl := b.total_pnl + pnl,
           wins := if won then b.wins + 1 else b.wins,
           losses := if won then b.losses else b.losses + 1 }

/-- Method `BotState.clear_position`. -/
def BotState.clear_position (b : BotState) : BotState :=
  { b with current_order_id := none, current_side := none, current_token_id := none }

/-- A bookkeeping operation on the live bot state. -/
inductive BotOp where
  | recordTrade (rec : TradeRecord)
  | recordOutcome (won : Bool) (pnl : ℚ) (exit_ty : String) (exit_price : Option ℚ)
  | clearPosition

/-- Run a sequence of bookkeeping operations. -/
def runBot (b : BotState) : List BotOp → BotState
  | [] => b
  | BotOp.recordTrade rec :: rest => runBot (b.record_trade rec) rest
  | BotOp.recordOutcome won pnl ty px :: rest => runBot (b.record_outcome won pnl ty px) rest
  | BotOp.clearPosition :: rest => runBot b.clear_position rest

/-- Number of `record_outcome` calls in an operation sequence. -/
def countOutcomes : List BotOp → Nat
  | [] => 0
  | BotOp.recordOutcome _ _ _ _ :: rest => countOutcomes rest + 1
  | _ :: rest => countOutcomes rest

/-- Sum of the `pnl` arguments passed to `record_outcome` in a sequence. -/
def sumOutcomePnl : List BotOp → ℚ
  | [] => 0
  | BotOp.recordOutcome _ pnl _ _ :: rest => sumOutcomePnl rest + pnl
  | _ :: rest => sumOutcomePnl rest

/-- Arithmetic mean, as `statistics.mean` (0/0 for the empty list). -/
def listMean (l : List ℚ) : ℚ := l.sum / (l.length : ℚ)

/-- Sum of squared deviations from the mean. -/
def sumSqDev (l : List ℚ) : ℚ := (l.map (fun x => (x - listMean l) ^ 2)).sum

/-- Square of `statistics.stdev`, the sample standard deviation: the sum of
squared deviations divided by `n - 1`. -/
def sampleVarianceN1 (l : List ℚ) : ℚ := sumSqDev l / ((l.length : ℚ) - 1)

/-- Square of `statistics.pstdev`, the population standard deviation: the sum
of squared deviations divided by `n`. -/
def popVariance (l : List ℚ) : ℚ := sumSqDev l / (l.length : ℚ)

/-- Square of the `std` field computed by `compute_stats` in
`scripts/backtest_scalp.py`: `statistics.stdev(pnls) if n > 1 else 0`.
The square is taken because the standard deviation itself is an irrational
square root; every comparison below goes through squares of these
non-negative quantities. -/
def compute_stats_std_sq (pnls : List ℚ) : ℚ :=
  if 1 < pnls.length then sampleVarianceN1 pnls else 0

/-- Split-half stability check from step 7 of `main` in
`scripts/backtest_scalp.py`, on the P&L sequence of a configuration's
chronologically ordered trades: `mid = len(trades) // 2`,
`h1 = trades[:mid]`, `h2 = trades[mid:]`, stable when both halves have
strictly positive mean (an empty half contributes mean 0). -/
def splitHalfStable (pnls : List ℚ) : Bool :=
  let mid := pnls.length / 2
  let h1 := pnls.take mid
  let h2 := pnls.drop mid
  let h1m := if h1 ≠ [] then listMean h1 else 0
  let h2m := if h2 ≠ [] then listMean h2 else 0
  decide (0 < h1m) && decide (0 < h2m)

/-- Embedding of `get_prices_in_window` from `scripts/backtest_scalp.py`. -/
def get_prices_in_window (prices : List PricePoint) (period_start : Int)
    (min_start min_end : ℚ) : List (ℚ × ℚ) :=
  let ws := (period_start : ℚ) + min_start * 60
  let we := (period_start : ℚ) + min_end * 60
  (prices.filter (fun pp => decide (ws ≤ (pp.t : ℚ) ∧ (pp.t : ℚ) ≤ we))).map
    (fun pp => (((pp.t : ℚ) - (period_start : ℚ)) / 60, pp.p))

/-- Maximum of a price list, as Python `max` (0 for the empty list, which the
callers below rule out by length guards). -/
def listMax : List ℚ → ℚ
  | [] => 0
  | x :: xs => xs.foldl max x

/-- Minimum of a price list, as Python `min`. -/
def listMin : List ℚ → ℚ
  | [] => 0
  | x :: xs => xs.foldl min x

/-- Midpoint-crossing count of `strat_range_trader`: for each consecutive
pair, count a crossing when the price moves from below the midpoint to at
or above it, or conversely. -/
def countMidCrosses (midpoint : ℚ) : List ℚ → Nat
  | [] => 0
  | [_] => 0
  | a :: b :: rest =>
    (if (a < midpoint ∧ midpoint ≤ b) ∨ (midpoint ≤ a ∧ b < midpoint) then 1 else 0)
      + countMidCrosses midpoint (b :: rest)

/-- Python's stable `pts.sort(key=lambda x: x[0])` on (minute, price) pairs,
modelled by stable insertion sort on the first component (any two stable
sorts by the same key agree pointwise). -/
def sortByMinute (pts : List (ℚ × ℚ)) : List (ℚ × ℚ) :=
  pts.insertionSort (fun a b => a.1 ≤ b.1)

/-- The trade dict returned by the strategy-family evaluators of
`scripts/backtest_scalp.py`; the merged-in `simulate_exit` fields are kept
as the nested `exit_info`. -/
structure TradeResult where
  side : String
  entry_price : ℚ
  entry_minute : ℚ
  outcome : String
  exit_info : ExitOutcome
deriving DecidableEq, Repr

/-- Embedding of `strat_range_trader` from `scripts/backtest_scalp.py`
(strategy family 5, Range-Bound).  The `params` dict becomes the explicit
arguments `obs_end`, `min_range`, `max_range`, `tp_delta`, `sl_delta` and
`deadline`. -/
def strat_range_trader (prices_up : List PricePoint) (period_start : Int) (outcome : String)
    (obs_end min_range max_range tp_delta sl_delta deadline : ℚ) : Option TradeResult :=
  let pts := get_prices_in_window prices_up period_start 0 obs_end
  if pts.length < 4 then none
  else
    let prices_only := pts.map Prod.snd
    let p_range := listMax prices_only - listMin prices_only
    if p_range < min_range ∨ max_range < p_range then none
    else
      let midpoint := (listMax prices_only + listMin prices_only) / 2
      if countMidCrosses midpoint prices_only < 1 then none
      else
        match (sortByMinute pts).getLast? with
        | none => none
        | some (entry_min, price_up) =>
          let price_dn := 1 - price_up
          let range_low_up := listMin prices_only
          let range_low_dn := 1 - listMax prices_only
          let up_from_bottom := price_up - range_low_up
          let dn_from_bottom := price_dn - range_low_dn
          if up_from_bottom < dn_from_bottom ∧ price_up < 1/2 then
            some { side := "Up", entry_price := price_up, entry_minute := entry_min,
                   outcome := outcome,
                   exit_info := simulate_exit prices_up period_start "Up" price_up entry_min
                     tp_delta sl_delta deadline false outcome }
          else if price_dn < 1/2 then
            some { side := "Down", entry_price := price_dn, entry_minute := entry_min,
                   outcome := outcome,
                   exit_info := simulate_exit prices_up period_start "Down" price_dn entry_min
                     tp_delta sl_delta deadline false outcome }
          else none

theorem walkExit_append (period_start : Int) (side : String)
    (entry_price entry_minute tp_delta sl_delta exit_deadline : ℚ)
    (l₂ : List PricePoint) :
    ∀ l₁ : List PricePoint,
      (∀ q ∈ l₁, passesSample period_start side entry_price entry_minute tp_delta sl_delta
        exit_deadline q) →
      walkExit period_start side entry_price entry_minute tp_delta sl_delta exit_deadline
          (l₁ ++ l₂)
        = walkExit period_start side entry_price entry_minute tp_delta sl_delta exit_deadline
            l₂ := by
  intro l₁
  induction l₁ with
  | nil => intro _; rfl
  | cons q l ih =>
    intro h
    have hq := h q (List.mem_cons_self _ _)
    have hl : ∀ r ∈ l, passesSample period_start side entry_price entry_minute tp_delta sl_delta
        exit_deadline r := fun r hr => h r (List.mem_cons_of_mem _ hr)
    simp only [List.cons_append, walkExit]
    by_cases hskip : sampleMinute period_start q ≤ entry_minute + 3/10
    · rw [if_pos hskip]
      exact ih hl
    · rw [if_neg hskip]
      rcases hq with hq | ⟨h15, hstep⟩
      · exact absurd hq hskip
      · rw [if_neg (not_lt.mpr h15), hstep]
        exact ih hl

/-- C1: at every walked sample the take-profit check runs before the
stop-loss check: if the first sample the walk examines past the entry
dead-zone satisfies both the take-profit condition and the stop-loss
condition, `simulate_exit` resolves it as a take-profit exit at the target
price with `pnl = tp_delta`, never as a stop-loss.  (With `tp_delta > 0`
and `sl_delta > 0` no sample can satisfy both conditions at once, so the
deltas are left unconstrained here; the statement subsumes the positive
case.) -/
theorem tp_checked_before_sl (l₁ l₂ : List PricePoint) (pp : PricePoint)
    (period_start : Int) (side : String)
    (entry_price entry_minute tp_delta sl_delta exit_deadline : ℚ)
    (hold_to_settlement : Bool) (outcome : String)
    (hpre : ∀ q ∈ l₁, passesSample period_start side entry_price entry_minute tp_delta
      sl_delta exit_deadline q)
    (hpost : ¬ sampleMinute period_start pp ≤ entry_minute + 3/10)
    (h15 : sampleMinute period_start pp ≤ 15)
    (htp : entry_price + tp_delta ≤ posPrice side pp.p)
    (_hsl : posPrice side pp.p ≤ entry_price - sl_delta) :
    simulate_exit (l₁ ++ pp :: l₂) period_start side entry_price entry_minute tp_delta
        sl_delta exit_deadline hold_to_settlement outcome
      = { exit_type := "tp", exit_price := entry_price + tp_delta,
          exit_minute := sampleMinute period_start pp, pnl := tp_delta } := by
  have hw : walkExit period_start side entry_price entry_minute tp_delta sl_delta
      exit_deadline (l₁ ++ pp :: l₂)
      = some { exit_type := "tp", exit_price := entry_price + tp_delta,
               exit_minute := sampleMinute period_start pp, pnl := tp_delta } := by
    rw [walkExit_append period_start side entry_price entry_minute tp_delta sl_delta
      exit_deadline (pp :: l₂) l₁ hpre]
    simp only [walkExit]
    rw [if_neg hpost, if_neg (not_lt.mpr h15)]
    simp only [stepExit, if_pos htp]
  simp only [simulate_exit, hw]

/-- Witness for C1 at a concrete input (a negative `sl_delta` makes both
conditions hold at the same sample). -/
theorem tp_checked_before_sl_witness :
    (∀ q ∈ ([] : List PricePoint), passesSample 0 "Up" (3/10) 1 (1/10) (-(1/2)) 14 q) ∧
    ¬ sampleMinute 0 ⟨300, 1/2⟩ ≤ 1 + 3/10 ∧
    sampleMinute 0 ⟨300, 1/2⟩ ≤ 15 ∧
    (3/10 : ℚ) + 1/10 ≤ posPrice "Up" (1/2) ∧
    posPrice "Up" (1/2) ≤ 3/10 - (-(1/2)) ∧
    simulate_exit [⟨300, 1/2⟩] 0 "Up" (3/10) 1 (1/10) (-(1/2)) 14 false "" =
      { exit_type := "tp", exit_price := 3/10 + 1/10,
        exit_minute := sampleMinute 0 ⟨300, 1/2⟩, pnl := 1/10 } :=
  ⟨fun q hq => absurd hq (List.not_mem_nil q),
   by norm_num [sampleMinute], by norm_num [sampleMinute],
   by norm_num [posPrice], by norm_num [posPrice],
   tp_checked_before_sl [] [] ⟨300, 1/2⟩ 0 "Up" (3/10) 1 (1/10) (-(1/2)) 14 false ""
     (fun q hq => absurd hq (List.not_mem_nil q))
     (by norm_num [sampleMinute]) (by norm_num [sampleMinute])
     (by norm_num [posPrice]) (by norm_num [posPrice])⟩

/-- C3 counterexample: a series whose samples strictly before
`deadline_minute` never satisfy TP or SL (vacuously: its only sample sits
exactly at the deadline minute) but whose first deadline-qualifying sample
satisfies the take-profit condition resolves as `tp`, not `deadline`. -/
theorem deadline_priority_counterexample :
    simulate_exit [⟨840, 9/20⟩] 0 "Up" (3/10) 5 (1/10) (1/20) 14 false "" =
      { exit_type := "tp", exit_price := 2/5, exit_minute := 14, pnl := 1/10 } ∧
    (simulate_exit [⟨840, 9/20⟩] 0 "Up" (3/10) 5 (1/10) (1/20) 14 false "").exit_type
      ≠ "deadline" := by
  refine ⟨?_, ?_⟩
  · norm_num [simulate_exit, walkExit, stepExit, posPrice, sampleMinute]
  · norm_num [simulate_exit, walkExit, stepExit, posPrice, sampleMinute]
    decide

/-- C3 (amended): if no walked sample before the first deadline-qualifying
sample triggers any exit, and that sample itself satisfies neither the
take-profit nor the stop-loss condition, then `simulate_exit` exits there
with type `deadline`, at the observed position price, with
`pnl = observed − entry` exactly. -/
theorem deadline_exit_after_quiet_walk (l₁ l₂ : List PricePoint) (pp : PricePoint)
    (period_start : Int) (side : String)
    (entry_price entry_minute tp_delta sl_delta exit_deadline : ℚ)
    (hold_to_settlement : Bool) (outcome : String)
    (hpre : ∀ q ∈ l₁, sampleMinute period_start q ≤ entry_minute + 3/10 ∨
      (sampleMinute period_start q ≤ 15 ∧
        ¬ entry_price + tp_delta ≤ posPrice side q.p ∧
        ¬ posPrice side q.p ≤ entry_price - sl_delta ∧
        sampleMinute period_start q < exit_deadline))
    (hpost : ¬ sampleMinute period_start pp ≤ entry_minute + 3/10)
    (h15 : sampleMinute period_start pp ≤ 15)
    (htp : ¬ entry_price + tp_delta ≤ posPrice side pp.p)
    (hsl : ¬ posPrice side pp.p ≤ entry_price - sl_delta)
    (hdl : exit_deadline ≤ sampleMinute period_start pp) :
    simulate_exit (l₁ ++ pp :: l₂) period_start side entry_price entry_minute tp_delta
        sl_delta exit_deadline hold_to_settlement outcome
      = { exit_type := "deadline", exit_price := posPrice side pp.p,
          exit_minute := sampleMinute period_start pp,
          pnl := posPrice side pp.p - entry_price } := by
  have hpre' : ∀ q ∈ l₁, passesSample period_start side entry_price entry_minute tp_delta
      sl_delta exit_deadline q := by
    intro q hq
    rcases hpre q hq with h | ⟨hq15, hqtp, hqsl, hqdl⟩
    · exact Or.inl h
    · refine Or.inr ⟨hq15, ?_⟩
      simp only [stepExit]
      rw [if_neg hqtp, if_neg hqsl, if_neg (not_le.mpr hqdl)]
  have hw : walkExit period_start side entry_price entry_minute tp_delta sl_delta
      exit_deadline (l₁ ++ pp :: l₂)
      = some { exit_type := "deadline", exit_price := posPrice side pp.p,
               exit_minute := sampleMinute period_start pp,
               pnl := posPrice side pp.p - entry_price } := by
    rw [walkExit_append period_start side entry_price entry_minute tp_delta sl_delta
      exit_deadline (pp :: l₂) l₁ hpre']
    simp only [walkExit]
    rw [if_neg hpost, if_neg (not_lt.mpr h15)]
    simp only [stepExit]
    rw [if_neg htp, if_neg hsl, if_pos hdl]
  simp only [simulate_exit, hw]

/-- Witness for the amended C3: a quiet sample at minute 10, then a
deadline exit at minute 14. -/
theorem deadline_exit_after_quiet_walk_witness :
    (∀ q ∈ [(⟨600, 1/2⟩ : PricePoint)], sampleMinute 0 q ≤ 5 + 3/10 ∨
      (sampleMinute 0 q ≤ 15 ∧
        ¬ (1/2 : ℚ) + 3/20 ≤ posPrice "Up" q.p ∧
        ¬ posPrice "Up" q.p ≤ 1/2 - 1/20 ∧
        sampleMinute 0 q < 14)) ∧
    ¬ sampleMinute 0 ⟨840, 11/20⟩ ≤ 5 + 3/10 ∧
    sampleMinute 0 ⟨840, 11/20⟩ ≤ 15 ∧
    ¬ (1/2 : ℚ) + 3/20 ≤ posPrice "Up" (11/20) ∧
    ¬ posPrice "Up" (11/20) ≤ 1/2 - 1/20 ∧
    (14 : ℚ) ≤ sampleMinute 0 ⟨840, 11/20⟩ ∧
    simulate_exit [⟨600, 1/2⟩, ⟨840, 11/20⟩] 0 "Up" (1/2) 5 (3/20) (1/20) 14 false "" =
      { exit_type := "deadline", exit_price := posPrice "Up" (11/20),
        exit_minute := sampleMinute 0 ⟨840, 11/20⟩,
        pnl := posPrice "Up" (11/20) - 1/2 } :=
  ⟨by intro q hq
      rw [List.mem_singleton] at hq
      subst hq
      right
      norm_num [sampleMinute, posPrice],
   by norm_num [sampleMinute], by norm_num [sampleMinute],
   by norm_num [posPrice], by norm_num [posPrice], by norm_num [sampleMinute],
   deadline_exit_after_quiet_walk [⟨600, 1/2⟩] [] ⟨840, 11/20⟩ 0 "Up" (1/2) 5 (3/20) (1/20)
     14 false ""
     (by intro q hq
         rw [List.mem_singleton] at hq
         subst hq
         right
         norm_num [sampleMinute, posPrice])
     (by norm_num [sampleMinute]) (by norm_num [sampleMinute])
     (by norm_num [posPrice]) (by norm_num [posPrice]) (by norm_num [sampleMinute])⟩

/-- C4: when `hold_to_settlement` is true, the period outcome is known
(`"up"` or `"down"`), and the post-entry walk ends without any take-profit,
stop-loss or deadline trigger, `simulate_exit` settles the position:
`pnl = 1 − entry_price` when the entered side matches the outcome and
`pnl = −entry_price` when it does not. -/
theorem settlement_fallback (prices_up : List PricePoint) (period_start : Int)
    (side : String) (entry_price entry_minute tp_delta sl_delta exit_deadline : ℚ)
    (outcome : String)
    (hwalk : walkExit period_start side entry_price entry_minute tp_delta sl_delta
      exit_deadline prices_up = none)
    (houtcome : outcome = "up" ∨ outcome = "down") :
    simulate_exit prices_up period_start side entry_price entry_minute tp_delta sl_delta
        exit_deadline true outcome
      = { exit_type := "settlement",
          exit_price :=
            if (side == "Up" && outcome == "up") || (side == "Down" && outcome == "down")
            then 1 else 0,
          exit_minute := 15,
          pnl :=
            if (side == "Up" && outcome == "up") || (side == "Down" && outcome == "down")
            then 1 - entry_price else -entry_price } := by
  have hne : outcome ≠ "" := by
    rcases houtcome with h | h <;> subst h <;> decide
  simp only [simulate_exit, hwalk]
  rw [if_pos ⟨True.intro, hne⟩]
  by_cases hwon :
      ((side == "Up" && outcome == "up") || (side == "Down" && outcome == "down")) = true
  · simp [hwon]
  · simp only [Bool.not_eq_true] at hwon
    simp [hwon, zero_sub]

/-- Witness for C4: an empty post-entry series held to a winning
settlement. -/
theorem settlement_fallback_witness :
    walkExit 0 "Up" (3/10) 5 (3/20) (1/20) 14 [] = none ∧
    (("up" : String) = "up" ∨ ("up" : String) = "down") ∧
    simulate_exit [] 0 "Up" (3/10) 5 (3/20) (1/20) 14 true "up" =
      { exit_type := "settlement", exit_price := 1, exit_minute := 15, pnl := 1 - 3/10 } :=
  ⟨rfl, Or.inl rfl, by
    rw [settlement_fallback [] 0 "Up" (3/10) 5 (3/20) (1/20) 14 "up" rfl (Or.inl rfl)]
    norm_num⟩

/-- C5 counterexample: a series with a sample at minute 1 only (no
post-entry data for an entry at minute 5) and no settlement fallback does
not produce the zero-P&L `no_data` outcome: it liquidates at the last
observed price with `exit_type = "eod"` and here a non-zero P&L. -/
theorem no_data_claim_counterexample :
    simulate_exit [⟨60, 1/2⟩] 0 "Up" (2/5) 5 (1/10) (1/20) 14 false "" =
      { exit_type := "eod", exit_price := 1/2, exit_minute := 29/2, pnl := 1/10 } ∧
    (simulate_exit [⟨60, 1/2⟩] 0 "Up" (2/5) 5 (1/10) (1/20) 14 false "").exit_type
      ≠ "no_data" ∧
    (simulate_exit [⟨60, 1/2⟩] 0 "Up" (2/5) 5 (1/10) (1/20) 14 false "").pnl ≠ 0 := by
  refine ⟨?_, ?_, ?_⟩
  · norm_num [simulate_exit, walkExit, stepExit, posPrice, sampleMinute]
  · norm_num [simulate_exit, walkExit, stepExit, posPrice, sampleMinute]
    decide
  · norm_num [simulate_exit, walkExit, stepExit, posPrice, sampleMinute]

/-- C5 (amended): when the walk ends without a trigger and the settlement
fallback does not apply, `simulate_exit` returns the `no_data` outcome
exactly when the series is entirely empty; whenever the series is
non-empty — even if it contains no post-entry sample — it returns the
`eod` liquidation outcome at the last observed position price. -/
theorem fallback_no_data_iff_empty (prices_up : List PricePoint) (period_start : Int)
    (side : String) (entry_price entry_minute tp_delta sl_delta exit_deadline : ℚ)
    (hold_to_settlement : Bool) (outcome : String)
    (hwalk : walkExit period_start side entry_price entry_minute tp_delta sl_delta
      exit_deadline prices_up = none)
    (hsettle : ¬ (hold_to_settlement = true ∧ outcome ≠ "")) :
    (simulate_exit prices_up period_start side entry_price entry_minute tp_delta sl_delta
        exit_deadline hold_to_settlement outcome
      = match prices_up.getLast? with
        | some last =>
          { exit_type := "eod", exit_price := posPrice side last.p, exit_minute := 29/2,
            pnl := posPrice side last.p - entry_price }
        | none =>
          { exit_type := "no_data", exit_price := entry_price, exit_minute := entry_minute,
            pnl := 0 }) ∧
    ((simulate_exit prices_up period_start side entry_price entry_minute tp_delta sl_delta
        exit_deadline hold_to_settlement outcome).exit_type = "no_data" ↔ prices_up = []) := by
  have hmain : simulate_exit prices_up period_start side entry_price entry_minute tp_delta
      sl_delta exit_deadline hold_to_settlement outcome
      = match prices_up.getLast? with
        | some last =>
          { exit_type := "eod", exit_price := posPrice side last.p, exit_minute := 29/2,
            pnl := posPrice side last.p - entry_price }
        | none =>
          { exit_type := "no_data", exit_price := entry_price, exit_minute := entry_minute,
            pnl := 0 } := by
    simp only [simulate_exit, hwalk]
    rw [if_neg hsettle]
  refine ⟨hmain, ?_⟩
  rw [hmain]
  cases hlast : prices_up.getLast? with
  | none =>
    rw [List.getLast?_eq_none_iff] at hlast
    simp [hlast]
  | some last =>
    have hne : prices_up ≠ [] := by
      intro he
      rw [he] at hlast
      exact Option.noConfusion hlast
    simp [hne]

/-- Witness for the amended C5: a series with only a pre-entry sample
liquidates as `eod`, not `no_data`. -/
theorem fallback_no_data_iff_empty_witness :
    walkExit 0 "Up" (2/5) 5 (1/10) (1/20) 14 [⟨60, 1/2⟩] = none ∧
    ¬ ((false = true) ∧ ("" : String) ≠ "") ∧
    ((simulate_exit [⟨60, 1/2⟩] 0 "Up" (2/5) 5 (1/10) (1/20) 14 false "").exit_type
      = "no_data" ↔ ([(⟨60, 1/2⟩ : PricePoint)] : List PricePoint) = []) :=
  ⟨by norm_num [walkExit, sampleMinute],
   by simp,
   (fallback_no_data_iff_empty [⟨60, 1/2⟩] 0 "Up" (2/5) 5 (1/10) (1/20) 14 false ""
     (by norm_num [walkExit, sampleMinute]) (by simp)).2⟩

/-- C6: for an open position, the live exit decision `check_exit` agrees
with the simulator's per-sample check under the live parameters
(`tp_delta = 0.15`, `sl_delta = 0.05`, `deadline_minute = 14`): the same
three conditions in the same priority order. -/
theorem check_exit_matches_simulator_step (state : StrategyState) (sig : TradeSignal)
    (current_price_up now : ℚ) (hsig : state.last_signal = some sig) :
    check_exit state current_price_up now =
      exitTypeOfSim (stepExit sig.entry_price TAKE_PROFIT STOP_LOSS DEADLINE_MINUTE
        ((now - (state.period_ts : ℚ)) / 60) (posPrice sig.side current_price_up)) := by
  simp only [check_exit, hsig, stepExit, exitTypeOfSim, posPrice]
  split_ifs <;> rfl

/-- Witness for C6: a concrete open Up position evaluated at minute 5. -/
theorem check_exit_matches_simulator_step_witness :
    ({ period_ts := 0, snapshots := [], signal_fired := true,
       last_signal := some { signal := "momentum_scalp", side := "Up", entry_price := 3/5,
                             entry_minute := 5, period_ts := 0 } } : StrategyState).last_signal
      = some { signal := "momentum_scalp", side := "Up", entry_price := 3/5,
               entry_minute := 5, period_ts := 0 } ∧
    check_exit
        { period_ts := 0, snapshots := [], signal_fired := true,
          last_signal := some { signal := "momentum_scalp", side := "Up", entry_price := 3/5,
                                entry_minute := 5, period_ts := 0 } } (4/5) 300
      = exitTypeOfSim (stepExit (3/5) TAKE_PROFIT STOP_LOSS DEADLINE_MINUTE
          ((300 - ((0 : Int) : ℚ)) / 60) (posPrice "Up" (4/5))) :=
  ⟨rfl,
   check_exit_matches_simulator_step
     { period_ts := 0, snapshots := [], signal_fired := true,
       last_signal := some { signal := "momentum_scalp", side := "Up", entry_price := 3/5,
                             entry_minute := 5, period_ts := 0 } }
     { signal := "momentum_scalp", side := "Up", entry_price := 3/5,
       entry_minute := 5, period_ts := 0 } (4/5) 300 rfl⟩

theorem evaluate_of_fired (state : StrategyState) (now : ℚ)
    (h : state.signal_fired = true) : evaluate state now = (none, state) := by
  simp only [evaluate, h, if_true]

theorem evaluate_some_fires (state : StrategyState) (now : ℚ) (sig : TradeSignal)
    (state' : StrategyState) (h : evaluate state now = (some sig, state')) :
    state'.signal_fired = true ∧ state.signal_fired = false := by
  simp only [evaluate] at h
  split at h
  · exact absurd h (by simp)
  · constructor
    · split at h
      · exact absurd h (by simp)
      · split at h
        · exact absurd h (by simp)
        · split at h
          · exact absurd h (by simp)
          · split at h
            · obtain ⟨-, h2⟩ := Prod.mk.injEq _ _ _ _ ▸ h
              rw [← h2]
            · split at h
              · obtain ⟨-, h2⟩ := Prod.mk.injEq _ _ _ _ ▸ h
                rw [← h2]
              · exact absurd h (by simp)
    · rename_i hnf
      exact Bool.not_eq_true _ ▸ hnf

theorem evaluate_none_state (state : StrategyState) (now : ℚ) (state' : StrategyState)
    (h : evaluate state now = (none, state')) : state' = state := by
  simp only [evaluate] at h
  split at h
  · exact (Prod.mk.injEq _ _ _ _ ▸ h).2.symm
  · split at h
    · exact (Prod.mk.injEq _ _ _ _ ▸ h).2.symm
    · split at h
      · exact (Prod.mk.injEq _ _ _ _ ▸ h).2.symm
      · split at h
        · exact (Prod.mk.injEq _ _ _ _ ▸ h).2.symm
        · split at h
          · exact absurd h (by simp)
          · split at h
            · exact absurd h (by simp)
            · exact (Prod.mk.injEq _ _ _ _ ▸ h).2.symm

theorem runStrategy_count_le (ops : List StratOp) :
    ∀ state : StrategyState,
      (runStrategy state ops).1 ≤ if state.signal_fired then 0 else 1 := by
  induction ops with
  | nil =>
    intro state
    simp only [runStrategy]
    split <;> simp
  | cons op rest ih =>
    intro state
    cases op with
    | snap m pu ts =>
      simp only [runStrategy]
      have h := ih (state.add_snapshot m pu ts)
      simpa [StrategyState.add_snapshot] using h
    | tick now =>
      simp only [runStrategy]
      rcases hev : evaluate state now with ⟨osig, state'⟩
      cases osig with
      | none =>
        have hst : state' = state := evaluate_none_state state now state' hev
        rw [hst]
        exact ih state
      | some sig =>
        obtain ⟨hf, hnf⟩ := evaluate_some_fires state now sig state' hev
        have h0 : (runStrategy state' rest).1 ≤ 0 := by simpa [hf] using ih state'
        show (runStrategy state' rest).1 + 1 ≤ if state.signal_fired = true then 0 else 1
        rw [hnf]
        simp only [Bool.false_eq_true, if_false]
        omega

/-- C2: starting from a freshly reset per-period state, any interleaving of
snapshot ingestion and `evaluate` calls yields at most one trade signal:
once a signal fires, the `signal_fired` flag makes every later `evaluate`
return `None` until the next reset. -/
theorem at_most_one_signal_per_period (s₀ : StrategyState) (period_ts : Int)
    (ops : List StratOp) :
    (runStrategy (s₀.reset period_ts) ops).1 ≤ 1 := by
  have h := runStrategy_count_le ops (s₀.reset period_ts)
  simpa [StrategyState.reset] using h

theorem map_sub_sq_sum (l : List ℚ) (c : ℚ) :
    (l.map (fun x => (x - c) ^ 2)).sum
      = (l.map (fun x => x ^ 2)).sum - 2 * c * l.sum + (l.length : ℚ) * c ^ 2 := by
  induction l with
  | nil => simp
  | cons a t ih =>
    simp only [List.map_cons, List.sum_cons, List.length_cons, ih]
    push_cast
    ring

theorem sumSqDev_mul_length (l : List ℚ) (h : l ≠ []) :
    (l.length : ℚ) * sumSqDev l
      = (l.length : ℚ) * (l.map (fun x => x ^ 2)).sum - l.sum ^ 2 := by
  have hn : (l.length : ℚ) ≠ 0 := by
    have := List.length_pos.mpr h
    positivity
  unfold sumSqDev listMean
  rw [map_sub_sq_sum]
  field_simp
  ring

/-- C7 counterexample: on the trade P&L list `[0, 2]` the standard deviation
reported by `compute_stats` (square root of `compute_stats_std_sq`, which is
`statistics.stdev` squared) differs from the population standard deviation
(square root of `popVariance`): the former is `√2`, the latter `1`. -/
theorem std_not_population_counterexample :
    Real.sqrt ((compute_stats_std_sq [0, 2] : ℚ) : ℝ)
      ≠ Real.sqrt ((popVariance [0, 2] : ℚ) : ℝ) := by
  have h1 : compute_stats_std_sq [0, 2] = 2 := by
    norm_num [compute_stats_std_sq, sampleVarianceN1, sumSqDev, listMean]
  have h2 : popVariance [0, 2] = 1 := by
    norm_num [popVariance, sumSqDev, listMean]
  rw [h1, h2]
  push_cast
  intro hcon
  have e2 : Real.sqrt 2 ^ 2 = 2 := Real.sq_sqrt (by norm_num)
  have e1 : Real.sqrt 1 ^ 2 = 1 := Real.sq_sqrt (by norm_num)
  rw [hcon, e1] at e2
  norm_num at e2

/-- C7 (amended): the `std` reported by `compute_stats` is the sample
standard deviation of the trade P&L values (sum of squared deviations
divided by `n − 1`, not by `n`): for `n ≥ 2` its square satisfies the
closed form `n·(n−1)·std² = n·Σx² − (Σx)²`. -/
theorem compute_stats_std_is_sample_std (pnls : List ℚ) (h : 2 ≤ pnls.length) :
    (pnls.length : ℚ) * ((pnls.length : ℚ) - 1) * compute_stats_std_sq pnls
      = (pnls.length : ℚ) * (pnls.map (fun x => x ^ 2)).sum - pnls.sum ^ 2 := by
  have h1 : 1 < pnls.length := h
  have hnil : pnls ≠ [] := by
    intro he
    rw [he] at h
    simp at h
  have hne : ((pnls.length : ℚ) - 1) ≠ 0 := by
    have h1q : (1 : ℚ) < (pnls.length : ℚ) := by exact_mod_cast h1
    intro hc
    nlinarith
  rw [compute_stats_std_sq, if_pos h1]
  unfold sampleVarianceN1
  have hkey := sumSqDev_mul_length pnls hnil
  field_simp
  linear_combination ((pnls.length : ℚ) - 1) * hkey

/-- Witness for the amended C7 at the P&L list `[0, 2]`. -/
theorem compute_stats_std_is_sample_std_witness :
    2 ≤ ([0, 2] : List ℚ).length ∧
    (([0, 2] : List ℚ).length : ℚ) * ((([0, 2] : List ℚ).length : ℚ) - 1)
        * compute_stats_std_sq [0, 2]
      = (([0, 2] : List ℚ).length : ℚ) * (([0, 2] : List ℚ).map (fun x => x ^ 2)).sum
          - ([0, 2] : List ℚ).sum ^ 2 :=
  ⟨by norm_num, compute_stats_std_is_sample_std [0, 2] (by norm_num)⟩

/-- C8: the split-half stability check cuts the chronologically ordered P&L
sequence at `mid = ⌊n/2⌋` into `trades[0..mid)` and `trades[mid..n)` —
whose concatenation restores the original order — and marks the
configuration stable exactly when both halves are non-empty with strictly
positive mean P&L; in particular a second half with negative mean is never
marked stable. -/
theorem splitHalfStable_spec (pnls : List ℚ) :
    pnls.take (pnls.length / 2) ++ pnls.drop (pnls.length / 2) = pnls ∧
    (splitHalfStable pnls = true ↔
      (pnls.take (pnls.length / 2) ≠ [] ∧ 0 < listMean (pnls.take (pnls.length / 2)) ∧
       pnls.drop (pnls.length / 2) ≠ [] ∧ 0 < listMean (pnls.drop (pnls.length / 2)))) := by
  refine ⟨List.take_append_drop _ _, ?_⟩
  unfold splitHalfStable
  by_cases h1 : pnls.take (pnls.length / 2) = [] <;>
    by_cases h2 : pnls.drop (pnls.length / 2) = [] <;>
    simp [h1, h2]

theorem runBot_totals (ops : List BotOp) :
    ∀ b : BotState,
      (runBot b ops).wins + (runBot b ops).losses = b.wins + b.losses + countOutcomes ops ∧
      (runBot b ops).total_pnl = b.total_pnl + sumOutcomePnl ops := by
  induction ops with
  | nil =>
    intro b
    simp [runBot, countOutcomes, sumOutcomePnl]
  | cons op rest ih =>
    intro b
    cases op with
    | recordTrade rec =>
      simp only [runBot, countOutcomes, sumOutcomePnl]
      have h := ih (b.record_trade rec)
      simpa [BotState.record_trade] using h
    | recordOutcome won pnl ty px =>
      simp only [runBot, countOutcomes, sumOutcomePnl]
      obtain ⟨hc, hp⟩ := ih (b.record_outcome won pnl ty px)
      refine ⟨?_, ?_⟩
      · rw [hc]
        simp only [BotState.record_outcome]
        cases won <;> simp <;> omega
      · rw [hp]
        simp only [BotState.record_outcome]
        ring
    | clearPosition =>
      simp only [runBot, countOutcomes, sumOutcomePnl]
      have h := ih b.clear_position
      simpa [BotState.clear_position] using h

/-- C10: every `BotState` reachable from the initial state by a sequence of
`record_trade`, `record_outcome` and `clear_position` calls satisfies the
accounting invariants: `total_trades = wins + losses` equals the number of
`record_outcome` calls, `total_pnl` is the sum of the recorded P&L values,
and `win_rate` is `wins / total_trades` for a positive denominator and `0`
otherwise. -/
theorem botState_accounting (ops : List BotOp) :
    (runBot initBotState ops).total_trades
        = (runBot initBotState ops).wins + (runBot initBotState ops).losses ∧
    (runBot initBotState ops).wins + (runBot initBotState ops).losses = countOutcomes ops ∧
    (runBot initBotState ops).total_pnl = sumOutcomePnl ops ∧
    (runBot initBotState ops).win_rate
      = if 0 < countOutcomes ops
        then ((runBot initBotState ops).wins : ℚ) / (countOutcomes ops : ℚ) else 0 := by
  obtain ⟨hc, hp⟩ := runBot_totals ops initBotState
  rw [show initBotState.wins = 0 from rfl, show initBotState.losses = 0 from rfl] at hc
  rw [show initBotState.total_pnl = 0 from rfl] at hp
  norm_num at hc hp
  refine ⟨rfl, hc, hp, ?_⟩
  rw [BotState.win_rate, BotState.total_trades, hc]

/-- C9 counterexample: a window whose latest Up price (0.55) is strictly
closer to the Up side's range bottom (0.52, distance 0.03) than the Down
side is to its own bottom (distance 0.17), yet `strat_range_trader` enters
the Down side, because the Up branch additionally requires the Up price to
be below 0.50. -/
theorem range_trader_side_counterexample :
    (strat_range_trader
        [⟨0, 13/25⟩, ⟨60, 18/25⟩, ⟨120, 13/25⟩, ⟨180, 18/25⟩, ⟨240, 11/20⟩]
        0 "up" 5 (1/20) (3/10) (1/10) (1/20) 12).map (fun tr => tr.side) = some "Down" ∧
    (sortByMinute (get_prices_in_window
        [⟨0, 13/25⟩, ⟨60, 18/25⟩, ⟨120, 13/25⟩, ⟨180, 18/25⟩, ⟨240, 11/20⟩] 0 0 5)).getLast?
      = some (4, 11/20) ∧
    (11/20 : ℚ) - listMin ((get_prices_in_window
          [⟨0, 13/25⟩, ⟨60, 18/25⟩, ⟨120, 13/25⟩, ⟨180, 18/25⟩, ⟨240, 11/20⟩] 0 0 5).map
            Prod.snd)
      < (1 - 11/20) - (1 - listMax ((get_prices_in_window
          [⟨0, 13/25⟩, ⟨60, 18/25⟩, ⟨120, 13/25⟩, ⟨180, 18/25⟩, ⟨240, 11/20⟩] 0 0 5).map
            Prod.snd)) := by
  refine ⟨?_, ?_, ?_⟩ <;>
    norm_num [strat_range_trader, get_prices_in_window, listMax, listMin, countMidCrosses,
      sortByMinute, List.insertionSort, List.orderedInsert, simulate_exit, walkExit,
      stepExit, posPrice, sampleMinute]

/-- C9 (amended): whenever `strat_range_trader` produces a trade, the entry
price is below 0.50; the Up side is entered exactly when it is strictly
closer to its own range bottom and its price is below 0.50, and otherwise
the Down side is entered when its price is below 0.50 (so the entered side
need not be the closer one when the closer side sits at or above 0.50, and
distance ties go to Down). -/
theorem strat_range_trader_entry_side
    (prices_up : List PricePoint) (period_start : Int) (outcome : String)
    (obs_end min_range max_range tp_delta sl_delta deadline : ℚ)
    (tr : TradeResult) (entry_min price_up : ℚ)
    (htr : strat_range_trader prices_up period_start outcome obs_end min_range max_range
      tp_delta sl_delta deadline = some tr)
    (hlast : (sortByMinute (get_prices_in_window prices_up period_start 0 obs_end)).getLast?
      = some (entry_min, price_up)) :
    tr.entry_price < 1/2 ∧
    (tr.side = "Up" →
      price_up - listMin ((get_prices_in_window prices_up period_start 0 obs_end).map Prod.snd)
        < (1 - price_up) -
            (1 - listMax ((get_prices_in_window prices_up period_start 0 obs_end).map Prod.snd)) ∧
      price_up < 1/2) ∧
    (tr.side = "Down" →
      1 - price_up < 1/2 ∧
      ¬(price_up - listMin ((get_prices_in_window prices_up period_start 0 obs_end).map Prod.snd)
          < (1 - price_up) -
              (1 - listMax ((get_prices_in_window prices_up period_start 0 obs_end).map Prod.snd)) ∧
        price_up < 1/2)) := by
  simp only [strat_range_trader] at htr
  rw [hlast] at htr
  dsimp only at htr
  split_ifs at htr with hlen hrange hcross hup hdn
  all_goals (injection htr with he; subst he)
  · exact ⟨hup.2, fun _ => ⟨hup.1, hup.2⟩, fun hside => by simp at hside⟩
  · exact ⟨hdn, fun hside => by simp at hside, fun _ => ⟨hdn, hup⟩⟩

/-- Witness for the amended C9: a concrete range-bound window where the Up
side is entered at 0.32. -/
theorem strat_range_trader_entry_side_witness :
    strat_range_trader [⟨0, 3/10⟩, ⟨60, 2/5⟩, ⟨120, 3/10⟩, ⟨180, 2/5⟩, ⟨240, 8/25⟩]
        0 "" 5 (1/20) (3/10) (1/10) (1/20) 12
      = some { side := "Up", entry_price := 8/25, entry_minute := 4, outcome := "",
               exit_info := { exit_type := "eod", exit_price := 8/25, exit_minute := 29/2,
                              pnl := 0 } } ∧
    (sortByMinute (get_prices_in_window
        [⟨0, 3/10⟩, ⟨60, 2/5⟩, ⟨120, 3/10⟩, ⟨180, 2/5⟩, ⟨240, 8/25⟩] 0 0 5)).getLast?
      = some (4, 8/25) ∧
    (({ side := "Up", entry_price := 8/25, entry_minute := 4, outcome := "",
        exit_info := { exit_type := "eod", exit_price := 8/25, exit_minute := 29/2,
                       pnl := 0 } } : TradeResult).entry_price < 1/2 ∧
     (({ side := "Up", entry_price := 8/25, entry_minute := 4, outcome := "",
         exit_info := { exit_type := "eod", exit_price := 8/25, exit_minute := 29/2,
                        pnl := 0 } } : TradeResult).side = "Up" →
       (8/25 : ℚ) - listMin ((get_prices_in_window
           [⟨0, 3/10⟩, ⟨60, 2/5⟩, ⟨120, 3/10⟩, ⟨180, 2/5⟩, ⟨240, 8/25⟩] 0 0 5).map Prod.snd)
         < (1 - 8/25) - (1 - listMax ((get_prices_in_window
             [⟨0, 3/10⟩, ⟨60, 2/5⟩, ⟨120, 3/10⟩, ⟨180, 2/5⟩, ⟨240, 8/25⟩] 0 0 5).map Prod.snd)) ∧
       (8/25 : ℚ) < 1/2) ∧
     (({ side := "Up", entry_price := 8/25, entry_minute := 4, outcome := "",
         exit_info := { exit_type := "eod", exit_price := 8/25, exit_minute := 29/2,
                        pnl := 0 } } : TradeResult).side = "Down" →
       1 - (8/25 : ℚ) < 1/2 ∧
       ¬((8/25 : ℚ) - listMin ((get_prices_in_window
             [⟨0, 3/10⟩, ⟨60, 2/5⟩, ⟨120, 3/10⟩, ⟨180, 2/5⟩, ⟨240, 8/25⟩] 0 0 5).map Prod.snd)
           < (1 - 8/25) - (1 - listMax ((get_prices_in_window
               [⟨0, 3/10⟩, ⟨60, 2/5⟩, ⟨120, 3/10⟩, ⟨180, 2/5⟩, ⟨240, 8/25⟩] 0 0 5).map
                 Prod.snd)) ∧
         (8/25 : ℚ) < 1/2))) :=
  ⟨by norm_num [strat_range_trader, get_prices_in_window, listMax, listMin, countMidCrosses,
      sortByMinute, List.insertionSort, List.orderedInsert, simulate_exit, walkExit,
      stepExit, posPrice, sampleMinute],
   by norm_num [get_prices_in_window, sortByMinute, List.insertionSort, List.orderedInsert],
   strat_range_trader_entry_side
     [⟨0, 3/10⟩, ⟨60, 2/5⟩, ⟨120, 3/10⟩, ⟨180, 2/5⟩, ⟨240, 8/25⟩] 0 "" 5 (1/20) (3/10)
     (1/10) (1/20) 12
     { side := "Up", entry_price := 8/25, entry_minute := 4, outcome := "",
       exit_info := { exit_type := "eod", exit_price := 8/25, exit_minute := 29/2, pnl := 0 } }
     4 (8/25)
     (by norm_num [strat_range_trader, get_prices_in_window, listMax, listMin,
        countMidCrosses, sortByMinute, List.insertionSort, List.orderedInsert, simulate_exit,
        walkExit, stepExit, posPrice, sampleMinute])
     (by norm_num [get_prices_in_window, sortByMinute, List.insertionSort,
        List.orderedInsert])⟩
